import Mathlib

/-!
Shallow embedding of rust-dwm-status (src/main.rs) and proofs about its
sensor adapters, status composer, update scheduler, notification hand-off
and signal-driven shutdown path.

Fallible queries (subprocess invocations, systemstat calls) are embedded as
Option-valued inputs: some models Ok, none models Err.  The code only ever
branches on success and never inspects the error value, so the error payload
is dropped.  Floating-point display values (battery percentage, load
average) are embedded over their already-rounded decimal digits, since no
property here depends on float rounding itself.
-/

namespace DwmStatus

/-- Embeds mail (main.rs lines 29-36): when the notmuch inbox count query
succeeded and the count is positive, show the mail icon and the count,
otherwise the empty string. -/
def mail (inboxCount : Option Int) : String :=
  match inboxCount with
  | some n => if n > 0 then "📧 " ++ toString n else ""
  | none => ""

/-- Embeds volume (main.rs lines 54-70): when the mute query succeeded and
reported muted, the muted icon alone; otherwise, when the volume query
succeeded, an icon chosen by the ranges 0-33 / 34-66 / catch-all of the
Rust match, followed by the numeric volume; empty on failure of both. -/
def volume (muteRes : Option Bool) (volRes : Option Int) : String :=
  if muteRes = some true then "🔇"
  else
    match volRes with
    | some v =>
      (if 0 ≤ v ∧ v ≤ 33 then "🔈"
       else if 34 ≤ v ∧ v ≤ 66 then "🔉"
       else "🔊") ++ " " ++ toString v
    | none => ""

/-- Embeds systemstat IpAddr: V4 carries the four octets, the other
variants carry nothing relevant here. -/
inductive IpAddr where
  | Empty : IpAddr
  | Unsupported : IpAddr
  | V4 (octets : Nat × Nat × Nat × Nat) : IpAddr
  | V6 (segments : List Nat) : IpAddr
deriving DecidableEq

/-- Embeds systemstat NetworkAddrs: an address and a netmask. -/
structure NetworkAddrs where
  addr : IpAddr
  netmask : IpAddr
deriving DecidableEq

/-- Embeds systemstat Network: an interface with its address list. -/
structure Network where
  name : String
  addrs : List NetworkAddrs
deriving DecidableEq

/-- True exactly on the V4 variant, as the Rust if-let on V4 patterns. -/
def isV4 (a : IpAddr) : Bool :=
  match a with
  | .V4 _ => true
  | _ => false

/-- The for-loop over an interface's addresses returning on the first V4. -/
def hasV4Addr (info : Network) : Bool :=
  info.addrs.any fun na => isV4 na.addr

/-- Name of the wired interface queried by network ("dock0" in the source). -/
def dockName : String := "dock0"

/-- Name of the wireless interface queried by network ("wlp58s0" in the
source). -/
def wirelessName : String := "wlp58s0"

/-- Embeds network (main.rs lines 72-92): the interface map is an
association list keyed by interface name.  The wired interface is checked
first; when it exists and has a V4 address the wired icon is returned,
otherwise the wireless interface is checked the same way; empty when
neither matches or the interface query failed. -/
def network (interfacesRes : Option (List (String × Network))) : String :=
  match interfacesRes with
  | some interfaces =>
    match interfaces.lookup dockName with
    | some dockInfo =>
      if hasV4Addr dockInfo then "⇅"
      else
        match interfaces.lookup wirelessName with
        | some wirelessInfo => if hasV4Addr wirelessInfo then "📡" else ""
        | none => ""
    | none =>
      match interfaces.lookup wirelessName with
      | some wirelessInfo => if hasV4Addr wirelessInfo then "📡" else ""
      | none => ""
  | none => ""

/-- Wired-or-wireless test used to state the network claim: the named
interface exists in the list and has a V4 address. -/
def lookupHasV4 (interfaces : List (String × Network)) (name : String) : Bool :=
  match interfaces.lookup name with
  | some info => hasV4Addr info
  | none => false

/-- Embeds plugged (main.rs lines 94-104): plug icon on AC power, battery
icon otherwise, and the plug icon again when the AC-power query failed. -/
def plugged (onAcPowerRes : Option Bool) : String :=
  match onAcPowerRes with
  | some true => "🔌"
  | some false => "🔋"
  | none => "🔌"

/-- One-decimal rendering used by battery.  The source formats
remaining_capacity * 100 as a float with one decimal digit; the embedding
takes the already-rounded value in tenths of a percent. -/
def fmtTenths (tenths : Nat) : String :=
  toString (tenths / 10) ++ "." ++ toString (tenths % 10)

/-- Embeds battery (main.rs lines 106-112): the plugged icon followed by
the remaining capacity percentage when the battery query succeeded, empty
otherwise. -/
def battery (onAcPowerRes : Option Bool) (batteryTenths : Option Nat) : String :=
  match batteryTenths with
  | some t => plugged onAcPowerRes ++ " " ++ fmtTenths t ++ "%"
  | none => ""

/-- Embeds ram (main.rs lines 114-121): used memory is total minus free;
on failure the placeholder glyph with an underscore instead of a number. -/
def ram (memRes : Option (Nat × Nat)) : String :=
  match memRes with
  | some (total, free) => "▯ " ++ toString (total - free)
  | none => "▯ _"

/-- Two-digit zero-padded fraction used by cpu. -/
def pad2 (n : Nat) : String :=
  if n < 10 then "0" ++ toString n else toString n

/-- Embeds cpu (main.rs lines 123-129): the one-minute load average to two
decimals (embedded over the rounded value in hundredths); on failure the
placeholder glyph with an underscore instead of a number. -/
def cpu (loadHundredths : Option Nat) : String :=
  match loadHundredths with
  | some h => "⚙ " ++ toString (h / 100) ++ "." ++ pad2 (h % 100)
  | none => "⚙ _"

/-- The four formatted components of the local time used by the chrono
format string of date. -/
structure DateTime where
  weekdayAbbrev : String
  dayOfMonth : String
  monthAbbrev : String
  hourMinute : String
deriving DecidableEq

/-- Embeds date (main.rs lines 131-133): the chrono format string
interleaving the calendar glyph, weekday, day, month, the separator glyph,
the clock glyph and the hour-minute field. -/
def date (now : DateTime) : String :=
  "📆 " ++ now.weekdayAbbrev ++ ", " ++ now.dayOfMonth ++ " " ++ now.monthAbbrev
    ++ " ⸱ 🕓 " ++ now.hourMinute

/-- Embeds separated (main.rs lines 135-137): the empty string stays empty,
anything else gets the separator glyph appended. -/
def separated (s : String) : String :=
  if s = "" then s else s ++ " ⸱ "

/-- One snapshot of every external query made during a single status
computation, plus the current time.  The Rust code holds a systemstat
handle and performs the queries at call time; each field here is the
outcome of one of those queries. -/
structure SysState where
  inboxCount : Option Int
  muteRes : Option Bool
  volRes : Option Int
  interfacesRes : Option (List (String × Network))
  onAcPowerRes : Option Bool
  batteryTenths : Option Nat
  memRes : Option (Nat × Nat)
  loadHundredths : Option Nat
  now : DateTime
deriving DecidableEq

/-- Embeds status (main.rs lines 139-147): the separated fields in source
order with the date appended last. -/
def status (sys : SysState) : String :=
  separated (mail sys.inboxCount) ++
    separated (volume sys.muteRes sys.volRes) ++
    separated (network sys.interfacesRes) ++
    separated (battery sys.onAcPowerRes sys.batteryTenths) ++
    separated (ram sys.memRes) ++
    separated (cpu sys.loadHundredths) ++
    date sys.now

/-- The composition pattern of status over six arbitrary readings in the
fixed field order, with the date field appended last. -/
def statusLine (m v n b r c d : String) : String :=
  separated m ++ separated v ++ separated n ++ separated b ++ separated r ++
    separated c ++ d

/-- Spec-side composer, written from the specification text: the non-empty
readings, each followed by the separator glyph, concatenated in order, with
the time field appended last and no separator after it. -/
def specComposed (readings : List String) (timeField : String) : String :=
  String.join ((readings.filter fun s => !(s == "")).map fun s => s ++ " ⸱ ") ++
    timeField

theorem append_ne_empty_left (a b : String) (ha : a ≠ "") : a ++ b ≠ "" := by
  intro h
  apply ha
  have hd := congrArg String.data h
  rw [String.data_append] at hd
  have : a.data = [] := (List.append_eq_nil.mp hd).1
  cases a
  simp_all

theorem append_ne_empty_right (a b : String) (hb : b ≠ "") : a ++ b ≠ "" := by
  intro h
  apply hb
  have hd := congrArg String.data h
  rw [String.data_append] at hd
  have : b.data = [] := (List.append_eq_nil.mp hd).2
  cases b
  simp_all

theorem date_ne_empty (d : DateTime) : date d ≠ "" := by
  unfold date
  apply append_ne_empty_left
  apply append_ne_empty_left
  apply append_ne_empty_left
  apply append_ne_empty_left
  apply append_ne_empty_left
  apply append_ne_empty_left
  apply append_ne_empty_left
  decide

/-- Embeds notify_rust notifications as consumed by run: summary, body and
the requested timeout in milliseconds (an i32, possibly negative). -/
structure Notification where
  summary : String
  body : String
  timeout : Int
deriving DecidableEq

/-- The banner string built at main.rs line 181: summary, a space, body. -/
def bannerText (n : Notification) : String :=
  n.summary ++ " " ++ n.body

/-- The ceiling declared at main.rs line 183: 10000 milliseconds. -/
def maxTimeout : Int := 10000

/-- Embeds the timeout adjustment at main.rs lines 184-187: any timeout
above the ceiling or below zero becomes the ceiling. -/
def effTimeout (t : Int) : Int :=
  if t > maxTimeout ∨ t < 0 then maxTimeout else t

/-- Spec-side formula, written from the specification text: the timeout
clamped to the interval from 0 to the ceiling. -/
def clampSpec (t : Int) : Int := max 0 (min t maxTimeout)

/-- Observable actions of one scheduler loop iteration, in order: a send on
the status channel (tagged with the call site: true for the notification
send at line 182, false for the computed-status send at line 193), or a
thread sleep in milliseconds. -/
inductive Event where
  | publish (line : String) (fromNotification : Bool) : Event
  | sleep (ms : Nat) : Event
deriving DecidableEq

/-- Embeds one iteration of the scheduler loop (main.rs lines 177-196).
Inputs: the try_recv outcome, the outcome of every sensor query performed
by status this iteration, and the current value of the banner variable.
Returns the banner variable at the end of the iteration and the ordered
list of observable actions.  When a notification was received, its banner
is sent unconditionally and the loop sleeps for the adjusted timeout; then
in either case the computed status is sent only when it differs from the
banner variable, and the iteration ends with the 500 ms sleep. -/
def tick (received : Option Notification) (sys : SysState) (banner : String) :
    String × List Event :=
  match received with
  | some n =>
    if status sys ≠ bannerText n then
      (status sys,
        [Event.publish (bannerText n) true,
         Event.sleep (effTimeout n.timeout).toNat,
         Event.publish (status sys) false,
         Event.sleep 500])
    else
      (bannerText n,
        [Event.publish (bannerText n) true,
         Event.sleep (effTimeout n.timeout).toNat,
         Event.sleep 500])
  | none =>
    if status sys ≠ banner then
      (status sys, [Event.publish (status sys) false, Event.sleep 500])
    else
      (banner, [Event.sleep 500])

/-- Runs the scheduler loop over a finite list of iteration inputs,
threading the banner variable and concatenating the per-iteration events. -/
def runTicks : List (Option Notification × SysState) → String → List Event
  | [], _ => []
  | (received, sys) :: rest, banner =>
    (tick received sys banner).2 ++ runTicks rest (tick received sys banner).1

/-- The lines sent on the status channel, in order, ignoring sleeps. -/
def publishes (events : List Event) : List String :=
  events.filterMap fun e =>
    match e with
    | .publish line _ => some line
    | .sleep _ => none

/-- True when the list contains two equal adjacent entries. -/
def hasAdjacentDup : List String → Bool
  | a :: b :: rest => a == b || hasAdjacentDup (b :: rest)
  | _ => false

/-- Strict de-duplication of the computed-status sends: walking the event
list with the last-sent line (initially the banner variable), every send
from the computed-status call site differs from the line sent just before
it. -/
def noStatusDup : String → List Event → Prop
  | _, [] => True
  | last, Event.publish line fromNotif :: rest =>
      (fromNotif = false → line ≠ last) ∧ noStatusDup line rest
  | last, Event.sleep _ :: rest => noStatusDup last rest

/-- State of the notification hand-off between the listener thread and the
scheduler loop (main.rs lines 172-175 and 178): the mpsc channel is an
unbounded FIFO queue.  The pushed and consumed histories are ghost fields
recording every send and every successful try_recv. -/
structure HandoffState where
  pushed : List Notification
  queue : List Notification
  consumed : List Notification
deriving DecidableEq

/-- Steps of the hand-off: the listener callback sends (always enabled,
the channel is unbounded so the send never blocks), and the scheduler
performs try_recv, which pops the oldest queued notification or returns
immediately when the queue is empty. -/
inductive HandoffStep : HandoffState → HandoffState → Prop where
  | push (s : HandoffState) (n : Notification) :
      HandoffStep s ⟨s.pushed ++ [n], s.queue ++ [n], s.consumed⟩
  | recvSome (s : HandoffState) (n : Notification) (rest : List Notification) :
      s.queue = n :: rest → HandoffStep s ⟨s.pushed, rest, s.consumed ++ [n]⟩
  | recvEmpty (s : HandoffState) : s.queue = [] → HandoffStep s s

/-- The initial hand-off state: nothing sent, queued or consumed. -/
def initHandoff : HandoffState := ⟨[], [], []⟩

/-- Reachability of a hand-off state from the initial state. -/
def ReachableHandoff (s : HandoffState) : Prop :=
  Relation.ReflTransGen HandoffStep initHandoff s

/-- The two termination signals recognized at main.rs line 201. -/
inductive OsSignal where
  | INT : OsSignal
  | TERM : OsSignal
deriving DecidableEq

/-- The Rust Debug rendering of a signal. -/
def signalName : OsSignal → String
  | .INT => "INT"
  | .TERM => "TERM"

/-- The Rust Debug rendering of the Option value bound by the receive arm
of the chan-select: the channel yields an Option of the signal. -/
def debugFmt (received : Option OsSignal) : String :=
  match received with
  | some s => "Some(" ++ signalName s ++ ")"
  | none => "None"

/-- The two arms of the chan-select in main (main.rs lines 216-223). -/
inductive SelectOutcome where
  | signalArm (received : Option OsSignal) : SelectOutcome
  | doneArm : SelectOutcome

/-- Embeds the tail of main (main.rs lines 216-224): whichever select arm
fires, main performs exactly one send on the status channel and then
returns, ending the process; the returned list is the complete list of
lines main sends after the select, in order. -/
def mainFinalSends : SelectOutcome → List String
  | .signalArm received =>
    ["rust-dwm-status stopped with signal " ++ debugFmt received ++ "."]
  | .doneArm => ["rust-dwm-status: done."]

/-- A fixed concrete time used by concrete evaluations. -/
def exTime : DateTime := ⟨"Mon", "01", "Jan", "00:00"⟩

/-- A snapshot in which every sensor query failed. -/
def exSys : SysState := ⟨none, none, none, none, none, none, none, none, exTime⟩

/-- A notification whose banner text coincides with the status line
computed from exSys. -/
def exNotif : Notification :=
  ⟨"▯", "_ ⸱ ⚙ _ ⸱ 📆 Mon, 01 Jan ⸱ 🕓 00:00", 0⟩

/-- A first sample notification. -/
def exNotifA : Notification := ⟨"hello", "world", 0⟩

/-- A second sample notification. -/
def exNotifB : Notification := ⟨"second", "message", -1⟩

/-- A wired interface carrying one V4 address. -/
def exDockNet : Network :=
  ⟨dockName, [⟨IpAddr.V4 (10, 0, 0, 1), IpAddr.V4 (255, 255, 255, 0)⟩]⟩

/-- A wireless interface carrying one V4 address. -/
def exWirelessNet : Network :=
  ⟨wirelessName, [⟨IpAddr.V4 (192, 168, 0, 2), IpAddr.V4 (255, 255, 255, 0)⟩]⟩

/-- Helper: the structure of network on a successful interface query as a
two-level conditional over the wired and wireless tests. -/
theorem network_some_eq (interfaces : List (String × Network)) :
    network (some interfaces) =
      if lookupHasV4 interfaces dockName then "⇅"
      else if lookupHasV4 interfaces wirelessName then "📡" else "" := by
  unfold network lookupHasV4
  cases hd : List.lookup dockName interfaces <;>
    cases hw : List.lookup wirelessName interfaces <;>
      simp [hd, hw]

/-- C2 counterexample: at input timeout -1 the code yields the ceiling
10000, while the clamp formula of the claim yields 0, so the effective
timeout is not clamp(timeout, 0, ceiling). -/
theorem banner_timeout_counterexample :
    effTimeout (-1) = 10000 ∧ clampSpec (-1) = 0 ∧
      effTimeout (-1) ≠ clampSpec (-1) := by
  decide

/-- C2 amended: the effective banner timeout equals the requested timeout
when that lies between 0 and the ceiling and equals the ceiling otherwise
(in particular -1 yields the ceiling, values above the ceiling yield the
ceiling, and 0 yields 0); the ceiling is 10000 ms, i.e. 10 seconds. -/
theorem banner_timeout_amended (t : Int) :
    effTimeout t = (if 0 ≤ t ∧ t ≤ maxTimeout then t else maxTimeout) ∧
      maxTimeout = 10000 := by
  refine ⟨?_, rfl⟩
  unfold effTimeout maxTimeout
  split_ifs <;> omega

/-- C6 counterexample: the ram adapter maps a failed memory query to the
placeholder glyph, not to the empty string. -/
theorem adapter_failure_counterexample :
    ram none = "▯ _" ∧ ram none ≠ "" := by
  decide

/-- C6 amended: every sensor adapter maps a failed underlying query to a
fixed fallback string instead of propagating the error: the empty string
for mail, volume, network and battery, a placeholder glyph for ram and
cpu, and the plug icon for the AC-power sub-query. -/
theorem adapter_failure_amended (onAcPowerRes : Option Bool) :
    mail none = "" ∧ volume none none = "" ∧ volume (some false) none = "" ∧
      network none = "" ∧ battery onAcPowerRes none = "" ∧
      plugged none = "🔌" ∧ ram none = "▯ _" ∧ cpu none = "⚙ _" :=
  ⟨rfl, rfl, rfl, rfl, rfl, rfl, rfl, rfl⟩

/-- C3: when the mute query reports muted the volume field is the muted
icon alone; otherwise a successfully read volume v yields the low icon
with the number for 0-33, the medium icon for 34-66 and the high icon for
67-100. -/
theorem volume_icon_thresholds (muteRes : Option Bool) (volRes : Option Int)
    (v : Int) :
    (muteRes = some true → volume muteRes volRes = "🔇") ∧
    (muteRes ≠ some true → volRes = some v →
      ((0 ≤ v ∧ v ≤ 33 → volume muteRes volRes = "🔈 " ++ toString v) ∧
       (34 ≤ v ∧ v ≤ 66 → volume muteRes volRes = "🔉 " ++ toString v) ∧
       (67 ≤ v ∧ v ≤ 100 → volume muteRes volRes = "🔊 " ++ toString v))) := by
  constructor
  · intro h
    simp [volume, h]
  · intro hm hv
    subst hv
    have hstep : volume muteRes (some v) =
        (if 0 ≤ v ∧ v ≤ 33 then "🔈"
         else if 34 ≤ v ∧ v ≤ 66 then "🔉"
         else "🔊") ++ " " ++ toString v := by
      unfold volume
      rw [if_neg hm]
    refine ⟨fun h => ?_, fun h => ?_, fun h => ?_⟩
    · rw [hstep, if_pos h]; rfl
    · rw [hstep, if_neg (by omega), if_pos (by omega)]; rfl
    · rw [hstep, if_neg (by omega), if_neg (by omega)]; rfl

/-- C3 witness: concrete evaluations at a muted state and at volumes 0, 50
and 100. -/
theorem volume_icon_thresholds_witness :
    volume (some true) (some 50) = "🔇" ∧ volume (some false) (some 0) = "🔈 0" ∧
      volume (some false) (some 50) = "🔉 50" ∧
      volume (some false) (some 100) = "🔊 100" :=
  ⟨(volume_icon_thresholds (some true) (some 50) 50).1 rfl,
   ((volume_icon_thresholds (some false) (some 0) 0).2 (by decide) rfl).1
     (by decide),
   ((volume_icon_thresholds (some false) (some 50) 50).2 (by decide) rfl).2.1
     (by decide),
   ((volume_icon_thresholds (some false) (some 100) 100).2 (by decide) rfl).2.2
     (by decide)⟩

/-- C4: when the wired interface has a V4 address the network field is the
wired icon regardless of the wireless state; else when the wireless
interface has a V4 address it is the wireless icon; else it is empty, and
it is also empty when the interface query failed. -/
theorem network_precedence (interfaces : List (String × Network)) :
    (lookupHasV4 interfaces dockName = true → network (some interfaces) = "⇅") ∧
    (lookupHasV4 interfaces dockName = false →
      lookupHasV4 interfaces wirelessName = true →
        network (some interfaces) = "📡") ∧
    (lookupHasV4 interfaces dockName = false →
      lookupHasV4 interfaces wirelessName = false →
        network (some interfaces) = "") ∧
    network none = "" := by
  refine ⟨fun h => ?_, fun h1 h2 => ?_, fun h1 h2 => ?_, rfl⟩
  · rw [network_some_eq, if_pos h]
  · rw [network_some_eq, if_neg (by simp [h1]), if_pos h2]
  · rw [network_some_eq, if_neg (by simp [h1]), if_neg (by simp [h2])]

/-- C4 witness: a list holding only the wired interface yields the wired
icon, and a list holding only the wireless interface yields the wireless
icon. -/
theorem network_precedence_witness :
    network (some [(dockName, exDockNet)]) = "⇅" ∧
      network (some [(wirelessName, exWirelessNet)]) = "📡" :=
  ⟨(network_precedence [(dockName, exDockNet)]).1 (by decide),
   (network_precedence [(wirelessName, exWirelessNet)]).2.1 (by decide)
     (by decide)⟩

/-- C5: the composed line lists the non-empty readings in the fixed order
with the separator glyph appended after each, the time field appended last
with no separator after it, and empty readings contributing nothing; and
the status function is exactly this composition of the adapter outputs in
source order. -/
theorem composer_fixed_order (m v n b r c d : String) (sys : SysState) :
    statusLine m v n b r c d = specComposed [m, v, n, b, r, c] d ∧
    status sys = statusLine (mail sys.inboxCount) (volume sys.muteRes sys.volRes)
      (network sys.interfacesRes) (battery sys.onAcPowerRes sys.batteryTenths)
      (ram sys.memRes) (cpu sys.loadHundredths) (date sys.now) := by
  refine ⟨?_, rfl⟩
  simp only [statusLine, specComposed, separated]
  by_cases hm : m = "" <;> by_cases hv : v = "" <;> by_cases hn : n = "" <;>
    by_cases hb : b = "" <;> by_cases hr : r = "" <;> by_cases hc : c = "" <;>
      simp [hm, hv, hn, hb, hr, hc, String.join, List.foldl, beq_iff_eq,
        String.empty_append, String.append_empty, String.append_assoc]

/-- C10: the composed status line always ends with the date field and is
never empty, whatever the outcome of every sensor query. -/
theorem status_ends_with_date (sys : SysState) :
    (∃ p, status sys = p ++ date sys.now) ∧ status sys ≠ "" := by
  constructor
  · exact ⟨separated (mail sys.inboxCount) ++ separated (volume sys.muteRes sys.volRes) ++
      separated (network sys.interfacesRes) ++
      separated (battery sys.onAcPowerRes sys.batteryTenths) ++
      separated (ram sys.memRes) ++ separated (cpu sys.loadHundredths), rfl⟩
  · unfold status
    exact append_ne_empty_right _ _ (date_ne_empty sys.now)

/-- C8: a loop iteration that received a notification first publishes the
banner, then sleeps for the effective timeout, and only then behaves
exactly like a notification-free iteration whose last-published line is the
banner: the computed status is considered only after the banner publish and
its timeout sleep. -/
theorem notification_precedes_status (n : Notification) (sys : SysState)
    (banner : String) :
    tick (some n) sys banner =
      ((tick none sys (bannerText n)).1,
        Event.publish (bannerText n) true ::
          Event.sleep (effTimeout n.timeout).toNat ::
            (tick none sys (bannerText n)).2) := by
  simp only [tick]
  split_ifs <;> rfl

/-- C9: on receipt of a termination signal, main performs exactly one final
send on the status channel, of a human-readable line naming the signal, and
the returned list is the complete list of lines main sends before the
process exits. -/
theorem signal_final_publish (s : OsSignal) :
    mainFinalSends (.signalArm (some s)) =
      ["rust-dwm-status stopped with signal Some(" ++ signalName s ++ ")."] ∧
    (mainFinalSends (.signalArm (some s))).length = 1 := by
  cases s <;> exact ⟨rfl, rfl⟩

/-- C1 counterexample: with every sensor failing, a notification whose
banner text equals the computed status line, delivered twice in a row,
makes the scheduler send the same line to the Publisher twice
consecutively, because the banner send at line 182 is unconditional. -/
theorem publish_dedup_counterexample :
    publishes (runTicks [(some exNotif, exSys), (some exNotif, exSys)] "") =
      [bannerText exNotif, bannerText exNotif] ∧
    hasAdjacentDup (publishes (runTicks
      [(some exNotif, exSys), (some exNotif, exSys)] "")) = true := by
  decide

/-- C1 amended: strict de-duplication holds for the computed-status sends
only: in every execution, a send from the computed-status call site always
differs from the line sent immediately before it (initially the banner
variable), while notification banner sends are unconditional and may
duplicate. -/
theorem publish_dedup_amended (inputs : List (Option Notification × SysState))
    (banner : String) : noStatusDup banner (runTicks inputs banner) := by
  induction inputs generalizing banner with
  | nil => trivial
  | cons head rest ih =>
    obtain ⟨received, sys⟩ := head
    cases received with
    | none =>
      by_cases h : status sys ≠ banner
      · simp only [runTicks, tick, if_pos h, List.cons_append, List.nil_append,
          noStatusDup]
        exact ⟨fun _ => h, ih (status sys)⟩
      · simp only [runTicks, tick, if_neg h, List.cons_append, List.nil_append,
          noStatusDup]
        exact ih banner
    | some n =>
      by_cases h : status sys ≠ bannerText n
      · simp only [runTicks, tick, if_pos h, List.cons_append, List.nil_append,
          noStatusDup]
        exact ⟨fun hb => absurd hb (by decide), fun _ => h, ih (status sys)⟩
      · simp only [runTicks, tick, if_neg h, List.cons_append, List.nil_append,
          noStatusDup]
        exact ⟨fun hb => absurd hb (by decide), ih (bannerText n)⟩

/-- C7 counterexample: two listener sends with no intervening consumption
reach a hand-off state holding two unconsumed notifications, so the
channel is not a single-slot hand-off. -/
theorem handoff_counterexample :
    ReachableHandoff ⟨[exNotifA, exNotifB], [exNotifA, exNotifB], []⟩ ∧
    ¬ (HandoffState.mk [exNotifA, exNotifB] [exNotifA, exNotifB] []).queue.length ≤ 1 :=
  ⟨Relation.ReflTransGen.tail
      (Relation.ReflTransGen.single (HandoffStep.push initHandoff exNotifA))
      (HandoffStep.push ⟨[exNotifA], [exNotifA], []⟩ exNotifB),
   by decide⟩

/-- C7 amended: the hand-off is an unbounded FIFO channel: in every
reachable state the consumed history followed by the queued notifications
equals the send history (consumption follows arrival order and nothing is
lost or reordered), and a listener send is enabled in every reachable
state, so the listener never blocks; the queue is not bounded to one
entry. -/
theorem handoff_fifo_amended (s : HandoffState) (h : ReachableHandoff s) :
    s.consumed ++ s.queue = s.pushed ∧
    ∀ n : Notification,
      HandoffStep s ⟨s.pushed ++ [n], s.queue ++ [n], s.consumed⟩ := by
  refine ⟨?_, fun n => HandoffStep.push s n⟩
  induction h with
  | refl => rfl
  | @tail b c hb step ih =>
    cases step with
    | push n1 =>
      show b.consumed ++ (b.queue ++ [n1]) = b.pushed ++ [n1]
      rw [← List.append_assoc, ih]
    | recvSome n1 rest1 hq =>
      show (b.consumed ++ [n1]) ++ rest1 = b.pushed
      rw [List.append_assoc, List.singleton_append, ← hq]
      exact ih
    | recvEmpty hq => exact ih

/-- C7 amended witness: the invariant evaluated at the reachable state
produced by one listener send. -/
theorem handoff_fifo_amended_witness :
    (HandoffState.mk [exNotifA] [exNotifA] []).consumed ++
        (HandoffState.mk [exNotifA] [exNotifA] []).queue =
      (HandoffState.mk [exNotifA] [exNotifA] []).pushed :=
  (handoff_fifo_amended ⟨[exNotifA], [exNotifA], []⟩
    (Relation.ReflTransGen.single (HandoffStep.push initHandoff exNotifA))).1

end DwmStatus
